import Mathlib

/-!
Verification of the multipart-upload orchestration logic of the
`up-downloader` repository: a Cloudflare-Worker relay (`/api/initiate-upload`,
`/api/upload-part/...`, `/api/complete-multipart`, `/api/abort-multipart`)
plus the browser-side driver (`handleMultipartUpload` in the FileUploader
component).  Each handler is embedded as a pure Lean function over the data it
inspects; backend (R2) calls are modelled by explicit outcome parameters and
the result records which backend call, if any, was issued.
-/

namespace UpDownloader

/-- Worker constant `MIN_PART_SIZE = 5 * 1024 * 1024` (5 MiB). -/
def MIN_PART_SIZE : Nat := 5 * 1024 * 1024

/-- Worker constant `MAX_PARTS = 10000`. -/
def MAX_PARTS : Nat := 10000

/-- Worker constant `CHUNK_SIZE = 10 * 1024 * 1024` (10 MiB). -/
def CHUNK_SIZE : Nat := 10 * 1024 * 1024

/-- Client constant `chunkSize = 10 * 1024 * 1024` in `handleMultipartUpload`
("Use 10MB chunks to match worker configuration"). -/
def clientChunkSize : Nat := 10 * 1024 * 1024

/-- `Math.ceil(fileSize / CHUNK_SIZE)` for a natural `fileSize`:
ceiling division by the chunk size. -/
def partCountOf (fileSize : Nat) : Nat :=
  (fileSize + CHUNK_SIZE - 1) / CHUNK_SIZE

/-- The parsed body of `/api/initiate-upload`: `{ filename, fileSize }`. -/
structure InitBody where
  filename : String
  fileSize : Nat
  deriving Repr, DecidableEq

/-- One entry of the `parts` array built by the initiate handler:
`{ url, partNumber }`. -/
structure PartSlot where
  url : String
  partNumber : Nat
  deriving Repr, DecidableEq

/-- The distinct error branches of the initiate handler. -/
inductive InitError where
  | parseError
  | invalidChunkSize
  | tooManyParts (partCount : Nat)
  deriving Repr, DecidableEq

/-- The response of the initiate handler. -/
inductive InitResult where
  | error (status : Nat) (e : InitError)
  | simple (uploadUrl : String) (filename : String)
  | multipart (uploadId : String) (parts : List PartSlot) (filename : String)
  deriving Repr, DecidableEq

/-- Initiate outcome: the response plus whether `env.BUCKET.createMultipartUpload`
was reached. -/
structure InitOutcome where
  backendCreateCalled : Bool
  result : InitResult
  deriving Repr, DecidableEq

/-- `getUploadUrl`: builds the relay URL for one part,
`origin + "/api/upload-part/" + key + "?partNumber=" + n + "&uploadId=" + id`. -/
def getUploadUrl (origin key uploadId : String) (partNumber : Nat) : String :=
  origin ++ "/api/upload-part/" ++ key ++ "?partNumber=" ++ toString partNumber
    ++ "&uploadId=" ++ uploadId

/-- The `for (let partNumber = 1; partNumber <= partCount; partNumber++)`
loop of the initiate handler: parts numbered `1..partCount`, each with its
relay URL. -/
def planParts (origin filename uploadId : String) (partCount : Nat) : List PartSlot :=
  (List.range' 1 partCount).map
    (fun n => { url := getUploadUrl origin filename uploadId n, partNumber := n })

/-- The `/api/initiate-upload` handler.  `body = none` models a request body
that `request.json()` failed to parse; `uploadId` is the identifier the
backend would assign if `createMultipartUpload` is reached. -/
def initiateUpload (origin : String) (body : Option InitBody) (uploadId : String) :
    InitOutcome :=
  match body with
  | none => { backendCreateCalled := false, result := .error 400 .parseError }
  | some b =>
    if CHUNK_SIZE < b.fileSize then
      let partCount := partCountOf b.fileSize
      if CHUNK_SIZE < MIN_PART_SIZE then
        { backendCreateCalled := false, result := .error 400 .invalidChunkSize }
      else if MAX_PARTS < partCount then
        { backendCreateCalled := false, result := .error 400 (.tooManyParts partCount) }
      else
        { backendCreateCalled := true,
          result := .multipart uploadId (planParts origin b.filename uploadId partCount)
            b.filename }
    else
      { backendCreateCalled := false, result := .simple "/api/upload" b.filename }

/-- `true` exactly on the `'Invalid chunk size'` 400 response of the initiate
handler. -/
def isInvalidChunkSizeError : InitResult → Bool
  | .error _ .invalidChunkSize => true
  | _ => false

/-- Byte-range start the client slices for a part:
`start = (partNumber - 1) * chunkSize`. -/
def partStart (partNumber : Nat) : Nat :=
  (partNumber - 1) * clientChunkSize

/-- Byte-range end (exclusive) the client slices for a part:
`end = Math.min(start + chunkSize, file.size)`. -/
def partStop (fileSize partNumber : Nat) : Nat :=
  min (partStart partNumber + clientChunkSize) fileSize

/-- One element of the `parts` array sent to `/api/complete-multipart`:
`{ partNumber, etag }`. -/
structure CompletedPart where
  partNumber : Nat
  etag : String
  deriving Repr, DecidableEq

/-- The ordering used by the completion handler's comparator
`(a, b) => a.partNumber - b.partNumber`. -/
def partLe (a b : CompletedPart) : Prop := a.partNumber ≤ b.partNumber

instance : DecidableRel partLe := fun a b => Nat.decLe a.partNumber b.partNumber

instance : IsTotal CompletedPart partLe := ⟨fun a b => Nat.le_total a.partNumber b.partNumber⟩

instance : IsTrans CompletedPart partLe := ⟨fun _ _ _ h1 h2 => Nat.le_trans h1 h2⟩

/-- `parts.sort((a, b) => a.partNumber - b.partNumber)`: a stable comparison
sort by part number. -/
def sortParts (l : List CompletedPart) : List CompletedPart :=
  List.insertionSort partLe l

/-- The parsed body of `/api/complete-multipart`; each field may be missing
(`parts = none` also covers a `parts` value that is not an array). -/
structure CompleteBody where
  filename : Option String
  uploadId : Option String
  parts : Option (List CompletedPart)
  deriving Repr, DecidableEq

/-- JavaScript truthiness of an optional string: `undefined` and `""` are
falsy. -/
def truthyStr : Option String → Bool
  | none => false
  | some s => !(s == "")

/-- Outcome of the completion handler: HTTP status plus the parts list passed
to `upload.complete`, if that backend call was reached. -/
structure CompleteOutcome where
  status : Nat
  backendParts : Option (List CompletedPart)
  deriving Repr, DecidableEq

/-- The `/api/complete-multipart` handler.  `body = none` models a request
body that `request.json()` failed to parse (caught by the surrounding `try`,
hence 500); `backend` models `upload.complete(sortedParts)`. -/
def completeHandler (body : Option CompleteBody)
    (backend : List CompletedPart → Except String Unit) : CompleteOutcome :=
  match body with
  | none => { status := 500, backendParts := none }
  | some b =>
    match b.parts, truthyStr b.filename && truthyStr b.uploadId with
    | some parts, true =>
      let sortedParts := sortParts parts
      match backend sortedParts with
      | .ok _ => { status := 200, backendParts := some sortedParts }
      | .error _ => { status := 500, backendParts := some sortedParts }
    | _, _ => { status := 400, backendParts := none }

/-- The response the client observes for one part PUT: `response.ok` plus the
`etag` field of the parsed JSON body (`none` when absent). -/
structure PartResponse where
  ok : Bool
  etag : Option String
  deriving Repr, DecidableEq

/-- A part upload fails when the response is not ok or carries no ETag; both
cases `throw` in `handleMultipartUpload`. -/
def partFails (r : PartResponse) : Bool := !r.ok || r.etag.isNone

/-- The network calls `handleMultipartUpload` can issue, in order. -/
inductive ClientCall where
  | putPart (partNumber : Nat)
  | completeCall (uploadId : String) (parts : List CompletedPart)
  | abortCall (uploadId : String)
  deriving Repr, DecidableEq

/-- `true` exactly on a `completeCall`. -/
def isCompleteCall : ClientCall → Bool
  | .completeCall _ _ => true
  | _ => false

/-- The `for (const part of uploadData.parts)` loop of
`handleMultipartUpload`: PUT each part in order; on a failing response stop
(the `throw`), otherwise collect `{ partNumber, etag }`.  Returns the PUT
trace and the collected parts (`none` after a throw). -/
def uploadLoop (resp : Nat → PartResponse) :
    List PartSlot → List CompletedPart → List ClientCall × Option (List CompletedPart)
  | [], acc => ([], some acc)
  | p :: ps, acc =>
    let r := resp p.partNumber
    match r.ok, r.etag with
    | true, some e =>
      match uploadLoop resp ps (acc ++ [{ partNumber := p.partNumber, etag := e }]) with
      | (calls, res) => (.putPart p.partNumber :: calls, res)
    | _, _ => ([.putPart p.partNumber], none)

/-- `handleMultipartUpload`: run the part loop; if it completes, POST
`/api/complete-multipart` (a non-ok completion response `throw`s too); any
`throw` lands in the `catch` block, which POSTs `/api/abort-multipart`. -/
def handleMultipartUpload (uploadId : String) (parts : List PartSlot)
    (resp : Nat → PartResponse) (completeOk : Bool) : List ClientCall :=
  match uploadLoop resp parts [] with
  | (calls, some completed) =>
    if completeOk then calls ++ [.completeCall uploadId completed]
    else calls ++ [.completeCall uploadId completed, .abortCall uploadId]
  | (calls, none) => calls ++ [.abortCall uploadId]

/-- Outcome of the part-upload handler: HTTP status, the part number
forwarded to the backend `uploadPart` call (if reached), and the `details`
field of a 500 body. -/
structure PartUploadOutcome where
  status : Nat
  backendPartNumber : Option Int
  details : Option String
  deriving Repr, DecidableEq

/-- The `/api/upload-part/<key>` PUT handler.  `partNumber` is the value of
`parseInt(searchParams.get('partNumber') || '0', 10)`: `0` when the query
parameter is absent, and an absent/unparseable parameter is equally falsy in
the `!uploadId || !partNumber` guard.  `body = none` models a request with no
body (the `throw` inside the `try`); `backend` models
`multipartUpload.uploadPart(partNumber, buffer)`. -/
def uploadPartHandler (uploadId : Option String) (partNumber : Int)
    (body : Option (List Nat)) (backend : Int → Except String String) :
    PartUploadOutcome :=
  if !truthyStr uploadId || partNumber == 0 then
    { status := 400, backendPartNumber := none, details := none }
  else
    match body with
    | none =>
      { status := 500, backendPartNumber := none,
        details := some "Request body is required" }
    | some _ =>
      match backend partNumber with
      | .ok _ => { status := 200, backendPartNumber := some partNumber, details := none }
      | .error e =>
        { status := 500, backendPartNumber := some partNumber, details := some e }

/-- The parsed body of `/api/abort-multipart`. -/
structure AbortBody where
  filename : Option String
  uploadId : Option String
  deriving Repr, DecidableEq

/-- Outcome of the abort handler.  `unhandledException` models the case where
`await request.json()` throws before the `try` block is entered, so no
response is produced by the handler at all. -/
inductive AbortOutcome where
  | unhandledException
  | success
  | structuredError (status : Nat) (details : String)
  deriving Repr, DecidableEq

/-- The `/api/abort-multipart` handler.  `request.json()` runs outside the
`try`/`catch`, so `body = none` (unparseable body) escapes as an unhandled
exception; `backend` models `resumeMultipartUpload` + `upload.abort()`. -/
def abortHandler (body : Option AbortBody) (backend : Except String Unit) :
    AbortOutcome :=
  match body with
  | none => .unhandledException
  | some _ =>
    match backend with
    | .ok _ => .success
    | .error e => .structuredError 500 e

/-- `true` exactly when the abort handler produced a structured HTTP
response. -/
def isStructuredResponse : AbortOutcome → Bool
  | .unhandledException => false
  | _ => true

end UpDownloader

namespace UpDownloader

/-- The initiate handler on a small file takes the simple branch. -/
theorem initiate_simple_of_le (origin fn uid : String) (fs : Nat)
    (hle : fs ≤ CHUNK_SIZE) :
    (initiateUpload origin (some ⟨fn, fs⟩) uid).result = .simple "/api/upload" fn := by
  simp [initiateUpload, Nat.not_lt.mpr hle]

/-- The initiate handler on a large file passing the part-count check takes
the multipart branch. -/
theorem initiate_multipart_of_lt (origin fn uid : String) (fs : Nat)
    (hgt : CHUNK_SIZE < fs) (hcnt : partCountOf fs ≤ MAX_PARTS) :
    (initiateUpload origin (some ⟨fn, fs⟩) uid).result =
      .multipart uid (planParts origin fn uid (partCountOf fs)) fn := by
  have h1 : ¬ CHUNK_SIZE < MIN_PART_SIZE := by decide
  have h2 : ¬ MAX_PARTS < partCountOf fs := Nat.not_lt.mpr hcnt
  simp [initiateUpload, hgt, h1, h2]

/-- The planned parts are numbered `1..partCount` in order. -/
theorem planParts_map_partNumber (origin fn uid : String) (N : Nat) :
    (planParts origin fn uid N).map (fun p => p.partNumber) = List.range' 1 N := by
  simp [planParts, Function.comp_def]

/-- C1: the initiate handler returns mode `simple` with no parts whenever
`fileSize <= CHUNK_SIZE`, and whenever `fileSize > CHUNK_SIZE` the returned
plan (returned exactly when the part count passes the `MAX_PARTS` check) has
mode `multipart` with parts numbered `1..partCountOf fileSize`. -/
theorem initiate_plan_modes (origin fn uid : String) (fs : Nat) :
    (fs ≤ CHUNK_SIZE →
      (initiateUpload origin (some ⟨fn, fs⟩) uid).result = .simple "/api/upload" fn) ∧
    (CHUNK_SIZE < fs → partCountOf fs ≤ MAX_PARTS →
      (initiateUpload origin (some ⟨fn, fs⟩) uid).result =
        .multipart uid (planParts origin fn uid (partCountOf fs)) fn ∧
      (planParts origin fn uid (partCountOf fs)).map (fun p => p.partNumber) =
        List.range' 1 (partCountOf fs)) :=
  ⟨fun hle => initiate_simple_of_le origin fn uid fs hle,
   fun hgt hcnt => ⟨initiate_multipart_of_lt origin fn uid fs hgt hcnt,
     planParts_map_partNumber origin fn uid (partCountOf fs)⟩⟩

/-- Witness for C1 at `fileSize = 1 MiB` (simple) and `fileSize = 25 MiB`
(multipart, 3 parts numbered 1, 2, 3). -/
theorem initiate_plan_modes_witness :
    ((initiateUpload "o" (some ⟨"f", 1048576⟩) "u").result = .simple "/api/upload" "f") ∧
    ((initiateUpload "o" (some ⟨"f", 26214400⟩) "u").result =
        .multipart "u" (planParts "o" "f" "u" (partCountOf 26214400)) "f" ∧
      (planParts "o" "f" "u" (partCountOf 26214400)).map (fun p => p.partNumber) =
        List.range' 1 (partCountOf 26214400)) :=
  ⟨(initiate_plan_modes "o" "f" "u" 1048576).1 (by decide),
   (initiate_plan_modes "o" "f" "u" 26214400).2 (by decide) (by decide)⟩

/-- C3: whenever the computed part count exceeds `MAX_PARTS`, the initiate
handler answers with the 400 `'File too large'` error and
`createMultipartUpload` is never reached. -/
theorem initiate_too_many_parts (origin fn uid : String) (fs : Nat)
    (h : MAX_PARTS < partCountOf fs) :
    initiateUpload origin (some ⟨fn, fs⟩) uid =
      { backendCreateCalled := false,
        result := .error 400 (.tooManyParts (partCountOf fs)) } := by
  have hgt : CHUNK_SIZE < fs := by
    by_contra hle
    have : partCountOf fs ≤ 1 := by
      simp only [partCountOf, CHUNK_SIZE] at *
      omega
    simp only [MAX_PARTS] at h
    omega
  have h1 : ¬ CHUNK_SIZE < MIN_PART_SIZE := by decide
  simp [initiateUpload, hgt, h, h1]

/-- Witness for C3 at `fileSize = 100 GiB`: the part count is 10240 and the
handler fails with the 400 error, no backend call. -/
theorem initiate_too_many_parts_witness :
    MAX_PARTS < partCountOf 107374182400 ∧
    initiateUpload "o" (some ⟨"f", 107374182400⟩) "u" =
      { backendCreateCalled := false,
        result := .error 400 (.tooManyParts (partCountOf 107374182400)) } :=
  ⟨by decide, initiate_too_many_parts "o" "f" "u" 107374182400 (by decide)⟩

/-- On a parsed body, the initiate handler never answers `'Invalid chunk
size'`: the guard compares two constants. -/
theorem invalid_chunk_size_unreachable_aux (origin : String) (b : InitBody)
    (uid : String) :
    isInvalidChunkSizeError (initiateUpload origin (some b) uid).result = false := by
  have h1 : ¬ CHUNK_SIZE < MIN_PART_SIZE := by decide
  by_cases h : CHUNK_SIZE < b.fileSize
  · by_cases h2 : MAX_PARTS < partCountOf b.fileSize
    · simp [initiateUpload, h, h1, h2, isInvalidChunkSizeError]
    · simp [initiateUpload, h, h1, h2, isInvalidChunkSizeError]
  · simp [initiateUpload, h, isInvalidChunkSizeError]

/-- C10: since `CHUNK_SIZE` (10 MiB) is a constant at least `MIN_PART_SIZE`
(5 MiB), the `'Invalid chunk size'` 400 branch of the initiate handler is
unreachable for every request. -/
theorem invalid_chunk_size_unreachable (origin : String) (body : Option InitBody)
    (uid : String) :
    isInvalidChunkSizeError (initiateUpload origin body uid).result = false ∧
    MIN_PART_SIZE ≤ CHUNK_SIZE :=
  ⟨match body with
    | none => rfl
    | some b => invalid_chunk_size_unreachable_aux origin b uid,
   by decide⟩

/-- Adjacent client slices meet exactly: part `n` ends where part `n+1`
starts. -/
theorem slice_contiguous (fs n : Nat) (hfs : CHUNK_SIZE < fs)
    (h1 : 1 ≤ n) (h2 : n < partCountOf fs) : partStop fs n = partStart (n + 1) := by
  simp only [partStop, partStart, partCountOf, clientChunkSize, CHUNK_SIZE] at *
  omega

/-- Every planned client slice is non-empty. -/
theorem slice_nonempty (fs n : Nat) (hfs : CHUNK_SIZE < fs)
    (h1 : 1 ≤ n) (h2 : n ≤ partCountOf fs) : partStart n < partStop fs n := by
  simp only [partStop, partStart, partCountOf, clientChunkSize, CHUNK_SIZE] at *
  omega

/-- Client slices of distinct parts do not overlap. -/
theorem slice_no_overlap (fs m n : Nat) (hfs : CHUNK_SIZE < fs)
    (h1 : 1 ≤ m) (h2 : m < n) (h3 : n ≤ partCountOf fs) :
    partStop fs m ≤ partStart n := by
  simp only [partStop, partStart, partCountOf, clientChunkSize, CHUNK_SIZE] at *
  omega

/-- The last client slice ends exactly at the file size, with length
`fileSize - (partCount - 1) * chunkSize`. -/
theorem slice_last (fs : Nat) (hfs : CHUNK_SIZE < fs) :
    partStop fs (partCountOf fs) = fs ∧
    partStop fs (partCountOf fs) - partStart (partCountOf fs) =
      fs - (partCountOf fs - 1) * clientChunkSize := by
  simp only [partStop, partStart, partCountOf, clientChunkSize, CHUNK_SIZE] at *
  omega

/-- C2: for a multipart upload (`fileSize > CHUNK_SIZE`), the byte ranges the
driver slices — `start = (partNumber-1)*chunkSize`,
`end = min(start+chunkSize, fileSize)` for part numbers
`1..partCountOf fileSize` — are contiguous, non-overlapping and exactly cover
`[0, fileSize)`, and the last part has length
`fileSize - (partCount-1)*chunkSize`. -/
theorem multipart_slices_partition (fs : Nat) (hfs : CHUNK_SIZE < fs) :
    clientChunkSize = CHUNK_SIZE ∧
    partStart 1 = 0 ∧
    (∀ n, 1 ≤ n → n < partCountOf fs → partStop fs n = partStart (n + 1)) ∧
    (∀ m n, 1 ≤ m → m < n → n ≤ partCountOf fs → partStop fs m ≤ partStart n) ∧
    (∀ n, 1 ≤ n → n ≤ partCountOf fs → partStart n < partStop fs n) ∧
    partStop fs (partCountOf fs) = fs ∧
    partStop fs (partCountOf fs) - partStart (partCountOf fs) =
      fs - (partCountOf fs - 1) * clientChunkSize :=
  ⟨rfl, rfl,
   fun n h1 h2 => slice_contiguous fs n hfs h1 h2,
   fun m n h1 h2 h3 => slice_no_overlap fs m n hfs h1 h2 h3,
   fun n h1 h2 => slice_nonempty fs n hfs h1 h2,
   (slice_last fs hfs).1, (slice_last fs hfs).2⟩

/-- Witness for C2 at `fileSize = 25 MiB`: 3 parts,
`[0,10MiB) [10MiB,20MiB) [20MiB,25MiB)`. -/
theorem multipart_slices_partition_witness :
    CHUNK_SIZE < 26214400 ∧ partCountOf 26214400 = 3 ∧
    partStop 26214400 1 = partStart 2 ∧
    partStop 26214400 2 = partStart 3 ∧
    partStop 26214400 3 = 26214400 ∧
    partStop 26214400 3 - partStart 3 = 26214400 - 2 * clientChunkSize :=
  ⟨by decide, by decide,
   (multipart_slices_partition 26214400 (by decide)).2.2.1 1 (by decide) (by decide),
   (multipart_slices_partition 26214400 (by decide)).2.2.1 2 (by decide) (by decide),
   (multipart_slices_partition 26214400 (by decide)).2.2.2.2.2.1,
   (multipart_slices_partition 26214400 (by decide)).2.2.2.2.2.2⟩

end UpDownloader
namespace UpDownloader

/-- C4: whatever order the completed parts arrive in, the list the completion
handler passes to the backend `complete` call is a permutation of the
submitted parts sorted ascending by part number. -/
theorem complete_sorts_parts (fn uid : String) (parts : List CompletedPart)
    (backend : List CompletedPart → Except String Unit)
    (hfn : fn ≠ "") (huid : uid ≠ "") :
    (completeHandler (some ⟨some fn, some uid, some parts⟩) backend).backendParts =
      some (sortParts parts) ∧
    List.Sorted partLe (sortParts parts) ∧
    (sortParts parts).Perm parts := by
  refine ⟨?_, List.sorted_insertionSort partLe parts, List.perm_insertionSort partLe parts⟩
  have h1 : truthyStr (some fn) = true := by simp [truthyStr, hfn]
  have h2 : truthyStr (some uid) = true := by simp [truthyStr, huid]
  simp only [completeHandler, h1, h2, Bool.and_self]
  cases hb : backend (sortParts parts) <;> simp [hb]

/-- Witness for C4: parts recorded in order 3, 1, 2 are submitted as
1, 2, 3. -/
theorem complete_sorts_parts_witness :
    ("f" : String) ≠ "" ∧ ("u" : String) ≠ "" ∧
    sortParts [⟨3, "e3"⟩, ⟨1, "e1"⟩, ⟨2, "e2"⟩] =
      [⟨1, "e1"⟩, ⟨2, "e2"⟩, ⟨3, "e3"⟩] ∧
    (completeHandler (some ⟨some "f", some "u",
        some [⟨3, "e3"⟩, ⟨1, "e1"⟩, ⟨2, "e2"⟩]⟩) (fun _ => Except.ok ())).backendParts =
      some (sortParts [⟨3, "e3"⟩, ⟨1, "e1"⟩, ⟨2, "e2"⟩]) ∧
    List.Sorted partLe (sortParts [⟨3, "e3"⟩, ⟨1, "e1"⟩, ⟨2, "e2"⟩]) :=
  ⟨by decide, by decide, by decide,
   (complete_sorts_parts "f" "u" [⟨3, "e3"⟩, ⟨1, "e1"⟩, ⟨2, "e2"⟩]
      (fun _ => Except.ok ()) (by decide) (by decide)).1,
   (complete_sorts_parts "f" "u" [⟨3, "e3"⟩, ⟨1, "e1"⟩, ⟨2, "e2"⟩]
      (fun _ => Except.ok ()) (by decide) (by decide)).2.1⟩

/-- Unfolding `uploadLoop` when the head part succeeds with an ETag. -/
theorem uploadLoop_cons_ok (resp : Nat → PartResponse) (p : PartSlot) (ps : List PartSlot)
    (acc : List CompletedPart) (e : String) (hok : (resp p.partNumber).ok = true)
    (he : (resp p.partNumber).etag = some e) :
    uploadLoop resp (p :: ps) acc =
      (ClientCall.putPart p.partNumber ::
         (uploadLoop resp ps (acc ++ [{ partNumber := p.partNumber, etag := e }])).1,
       (uploadLoop resp ps (acc ++ [{ partNumber := p.partNumber, etag := e }])).2) := by
  simp [uploadLoop, hok, he]

/-- Unfolding `uploadLoop` when the head part fails: the loop stops at the
throw. -/
theorem uploadLoop_cons_fail (resp : Nat → PartResponse) (p : PartSlot) (ps : List PartSlot)
    (acc : List CompletedPart) (hf : partFails (resp p.partNumber) = true) :
    uploadLoop resp (p :: ps) acc = ([ClientCall.putPart p.partNumber], none) := by
  simp only [partFails, Bool.or_eq_true, Bool.not_eq_true', Option.isNone_iff_eq_none] at hf
  cases hok : (resp p.partNumber).ok <;> cases he : (resp p.partNumber).etag
  · simp [uploadLoop, hok, he]
  · simp [uploadLoop, hok, he]
  · simp [uploadLoop, hok, he]
  · rw [hok, he] at hf
    simp at hf

/-- The part loop only ever issues part PUTs. -/
theorem uploadLoop_calls_put (resp : Nat → PartResponse) :
    ∀ (l : List PartSlot) (acc : List CompletedPart) (c : ClientCall),
      c ∈ (uploadLoop resp l acc).1 → ∃ n, c = ClientCall.putPart n
  | [], _, c, h => by simp [uploadLoop] at h
  | p :: ps, acc, c, h => by
    by_cases hf : partFails (resp p.partNumber) = true
    · rw [uploadLoop_cons_fail resp p ps acc hf] at h
      simp at h
      exact ⟨p.partNumber, h⟩
    · simp only [partFails, Bool.or_eq_true, Bool.not_eq_true', Option.isNone_iff_eq_none,
        not_or] at hf
      have hok : (resp p.partNumber).ok = true := by
        cases hx : (resp p.partNumber).ok
        · exact absurd hx hf.1
        · rfl
      obtain ⟨e, he⟩ : ∃ e, (resp p.partNumber).etag = some e := by
        cases hx : (resp p.partNumber).etag
        · exact absurd hx hf.2
        · exact ⟨_, rfl⟩
      rw [uploadLoop_cons_ok resp p ps acc e hok he] at h
      rcases List.mem_cons.mp h with rfl | h2
      · exact ⟨p.partNumber, rfl⟩
      · exact uploadLoop_calls_put resp ps _ c h2

/-- If some planned part fails, the part loop does not return a completed
part set. -/
theorem uploadLoop_fail_none (resp : Nat → PartResponse) :
    ∀ (l : List PartSlot) (acc : List CompletedPart),
      (∃ p ∈ l, partFails (resp p.partNumber) = true) →
      (uploadLoop resp l acc).2 = none
  | [], _, h => by simp at h
  | p :: ps, acc, h => by
    by_cases hf : partFails (resp p.partNumber) = true
    · rw [uploadLoop_cons_fail resp p ps acc hf]
    · simp only [partFails, Bool.or_eq_true, Bool.not_eq_true', Option.isNone_iff_eq_none,
        not_or] at hf
      have hok : (resp p.partNumber).ok = true := by
        cases hx : (resp p.partNumber).ok
        · exact absurd hx hf.1
        · rfl
      obtain ⟨e, he⟩ : ∃ e, (resp p.partNumber).etag = some e := by
        cases hx : (resp p.partNumber).etag
        · exact absurd hx hf.2
        · exact ⟨_, rfl⟩
      rw [uploadLoop_cons_ok resp p ps acc e hok he]
      obtain ⟨q, hq, hqf⟩ := h
      rcases List.mem_cons.mp hq with rfl | hq2
      · exact absurd hqf (by simp [partFails, hok, he])
      · exact uploadLoop_fail_none resp ps _ ⟨q, hq2, hqf⟩

/-- C5: whenever some part upload of a multipart run fails (non-ok response
or missing ETag), the driver issues the abort call for that uploadId and
never issues the complete call. -/
theorem part_failure_aborts (uploadId : String) (parts : List PartSlot)
    (resp : Nat → PartResponse) (completeOk : Bool)
    (h : ∃ p ∈ parts, partFails (resp p.partNumber) = true) :
    ClientCall.abortCall uploadId ∈ handleMultipartUpload uploadId parts resp completeOk ∧
    ∀ c ∈ handleMultipartUpload uploadId parts resp completeOk,
      isCompleteCall c = false := by
  have h2 := uploadLoop_fail_none resp parts [] h
  unfold handleMultipartUpload
  rcases hu : uploadLoop resp parts [] with ⟨calls, res⟩
  rw [hu] at h2
  simp only at h2
  subst h2
  simp only
  constructor
  · simp
  · intro c hc
    rcases List.mem_append.mp hc with hc1 | hc2
    · obtain ⟨n, rfl⟩ := uploadLoop_calls_put resp parts [] c (by rw [hu]; exact hc1)
      rfl
    · simp at hc2
      subst hc2
      rfl

/-- Witness for C5: part 2 of 3 fails; the trace contains the abort call and
no complete call. -/
theorem part_failure_aborts_witness :
    (∃ p ∈ [PartSlot.mk "u1" 1, PartSlot.mk "u2" 2, PartSlot.mk "u3" 3],
      partFails ((fun n => if n == 2 then PartResponse.mk false none
        else PartResponse.mk true (some "e")) p.partNumber) = true) ∧
    (ClientCall.abortCall "uid" ∈
      handleMultipartUpload "uid" [PartSlot.mk "u1" 1, PartSlot.mk "u2" 2, PartSlot.mk "u3" 3]
        (fun n => if n == 2 then PartResponse.mk false none
          else PartResponse.mk true (some "e")) true ∧
    ∀ c ∈ handleMultipartUpload "uid"
        [PartSlot.mk "u1" 1, PartSlot.mk "u2" 2, PartSlot.mk "u3" 3]
        (fun n => if n == 2 then PartResponse.mk false none
          else PartResponse.mk true (some "e")) true,
      isCompleteCall c = false) :=
  ⟨by decide,
   part_failure_aborts "uid" [PartSlot.mk "u1" 1, PartSlot.mk "u2" 2, PartSlot.mk "u3" 3]
     (fun n => if n == 2 then PartResponse.mk false none
       else PartResponse.mk true (some "e")) true (by decide)⟩

/-- C6 counterexample: the part-upload handler performs no range validation.
For a 25 MiB session the planned range is `1..3`, yet part number 10001 is
forwarded to the backend and answered 200 rather than rejected. -/
theorem uploadPart_range_unchecked_cex :
    partCountOf 26214400 = 3 ∧
    ¬ (1 ≤ (10001 : Int) ∧ (10001 : Int) ≤ 3) ∧
    (uploadPartHandler (some "uid") 10001 (some [0])
        (fun _ => Except.ok "e")).backendPartNumber = some 10001 ∧
    (uploadPartHandler (some "uid") 10001 (some [0])
        (fun _ => Except.ok "e")).status = 200 :=
  ⟨by decide, by decide, rfl, rfl⟩

/-- C6 (amended): per request the part-upload handler issues at most one
backend `uploadPart` call, with exactly the parsed part number; the call is
made iff `uploadId` is truthy and the part number is nonzero — there is no
validation against the session's planned range. -/
theorem uploadPart_forwarding (uid : Option String) (pn : Int) (body : List Nat)
    (backend : Int → Except String String) :
    (uploadPartHandler uid pn (some body) backend).backendPartNumber = some pn ↔
      (truthyStr uid = true ∧ pn ≠ 0) := by
  unfold uploadPartHandler
  by_cases h1 : truthyStr uid
  · by_cases h2 : pn = 0
    · simp [h1, h2]
    · have h2b : (pn == 0) = false := by simpa using h2
      cases hb : backend pn <;> simp [h1, h2, h2b, hb]
  · simp [h1, Bool.not_eq_true] at *

/-- C7 counterexample: an unparseable abort body makes `request.json()` throw
before the `try` block, so the handler produces no structured response. -/
theorem abort_unparseable_body_cex :
    isStructuredResponse (abortHandler none (Except.ok ())) = false := rfl

/-- C7 (amended): on every parseable abort body — whatever its fields, and in
particular for a repeated abort of an already-aborted or completed session,
where the backend reports an error — the handler returns `{success}` or a
structured 500 body wrapping the backend error message. -/
theorem abort_structured_on_parsed_body (b : AbortBody) (backend : Except String Unit) :
    isStructuredResponse (abortHandler (some b) backend) = true ∧
    (abortHandler (some b) backend = .success ∨
      ∃ e, backend = .error e ∧ abortHandler (some b) backend = .structuredError 500 e) := by
  cases backend with
  | ok u => exact ⟨rfl, Or.inl rfl⟩
  | error e => exact ⟨rfl, Or.inr ⟨e, rfl, rfl⟩⟩

/-- C8: the completion handler answers 400 without any backend call when
`filename` or `uploadId` is missing (or empty) or `parts` is missing or not
an array; when all fields are present it proceeds to the backend complete
call with the sorted parts. -/
theorem complete_field_validation (b : CompleteBody)
    (backend : List CompletedPart → Except String Unit) :
    ((truthyStr b.filename = false ∨ truthyStr b.uploadId = false ∨ b.parts = none) →
      completeHandler (some b) backend = { status := 400, backendParts := none }) ∧
    (∀ parts, b.parts = some parts → truthyStr b.filename = true →
      truthyStr b.uploadId = true →
      (completeHandler (some b) backend).backendParts = some (sortParts parts)) := by
  constructor
  · intro h
    rcases hp : b.parts with _ | parts
    · cases hb : truthyStr b.filename && truthyStr b.uploadId <;>
        simp [completeHandler, hp, hb]
    · have hb : (truthyStr b.filename && truthyStr b.uploadId) = false := by
        rcases h with h | h | h
        · simp [h]
        · simp [h]
        · rw [hp] at h
          cases h
      simp [completeHandler, hp, hb]
  · intro parts hp h1 h2
    have hb : (truthyStr b.filename && truthyStr b.uploadId) = true := by simp [h1, h2]
    cases hbk : backend (sortParts parts) <;> simp [completeHandler, hp, hb, hbk]

/-- Witness for C8: a missing `uploadId` yields 400 with no backend call; a
fully populated body reaches the backend complete call. -/
theorem complete_field_validation_witness :
    (truthyStr (none : Option String) = false ∧
      completeHandler (some ⟨some "f", none, some []⟩) (fun _ => Except.ok ()) =
        { status := 400, backendParts := none }) ∧
    (truthyStr (some "f") = true ∧ truthyStr (some "u") = true ∧
      (completeHandler (some ⟨some "f", some "u", some [⟨1, "e"⟩]⟩)
          (fun _ => Except.ok ())).backendParts = some (sortParts [⟨1, "e"⟩])) :=
  ⟨⟨rfl, (complete_field_validation ⟨some "f", none, some []⟩ (fun _ => Except.ok ())).1
      (Or.inr (Or.inl rfl))⟩,
   ⟨rfl, rfl,
    (complete_field_validation ⟨some "f", some "u", some [⟨1, "e"⟩]⟩
        (fun _ => Except.ok ())).2 [⟨1, "e"⟩] rfl rfl rfl⟩⟩

/-- C9: the part-upload handler answers 400 before touching the backend when
`uploadId` is missing (or empty) or the part number parses to 0
(missing/unparseable parameter); when the parameters are present and the
backend fails, it answers 500 wrapping the backend error message. -/
theorem uploadPart_param_validation (uid : Option String) (pn : Int)
    (body : Option (List Nat)) (backend : Int → Except String String) :
    ((truthyStr uid = false ∨ pn = 0) →
      uploadPartHandler uid pn body backend =
        { status := 400, backendPartNumber := none, details := none }) ∧
    (∀ e bs, truthyStr uid = true → pn ≠ 0 → body = some bs → backend pn = .error e →
      (uploadPartHandler uid pn body backend).status = 500 ∧
      (uploadPartHandler uid pn body backend).details = some e) := by
  constructor
  · intro h
    unfold uploadPartHandler
    rcases h with h | h
    · simp [h]
    · simp [h]
  · intro e bs h1 h2 h3 h4
    subst h3
    have h2b : (pn == 0) = false := by simpa using h2
    unfold uploadPartHandler
    simp [h1, h2b, h4]

/-- Witness for C9: a missing `uploadId` yields 400 with no backend call; a
backend failure on part 3 yields 500 with the backend message in
`details`. -/
theorem uploadPart_param_validation_witness :
    (truthyStr none = false ∧
      uploadPartHandler none 1 (some [0]) (fun _ => Except.ok "e") =
        { status := 400, backendPartNumber := none, details := none }) ∧
    (truthyStr (some "uid") = true ∧ (3 : Int) ≠ 0 ∧
      (fun _ : Int => Except.error (α := String) "boom") 3 = Except.error "boom" ∧
      (uploadPartHandler (some "uid") 3 (some [0])
          (fun _ => Except.error "boom")).status = 500 ∧
      (uploadPartHandler (some "uid") 3 (some [0])
          (fun _ => Except.error "boom")).details = some "boom") :=
  ⟨⟨rfl, (uploadPart_param_validation none 1 (some [0]) (fun _ => Except.ok "e")).1
      (Or.inl rfl)⟩,
   ⟨rfl, by decide, rfl,
    ((uploadPart_param_validation (some "uid") 3 (some [0])
        (fun _ => Except.error "boom")).2 "boom" [0] rfl (by decide) rfl rfl).1,
    ((uploadPart_param_validation (some "uid") 3 (some [0])
        (fun _ => Except.error "boom")).2 "boom" [0] rfl (by decide) rfl rfl).2⟩⟩

end UpDownloader
